import Mathlib

/-!
Verification development for the Storylinez SDK bulk content uploader.

The definitions below are a shallow embedding of the code in
`scripts/bulk_content_uploader.py` and `src/storylinez/storage.py`:
the folder scanner (`get_file_type`, `scan_folder`), the interactive
settings normalisation (`configure_upload_settings`), the progress
callback (`progress_callback`), the transfer acceptance check of
`StorageClient.upload_file`, and the bulk upload orchestrator
(`run_batch`, modelled from the specification because the SDK method
`upload_and_process_files_bulk` is not part of the checked sources).
-/

/-! ## Folder scanner (scripts/bulk_content_uploader.py) -/

/-- The fixed extension table `SUPPORTED_EXTENSIONS` of the uploader script:
video mp4; audio mp3, wav; image jpg, jpeg, png. -/
def SUPPORTED_EXTENSIONS : List (String × List String) :=
  [("VIDEO", [".mp4"]),
   ("AUDIO", [".mp3", ".wav"]),
   ("IMAGE", [".jpg", ".jpeg", ".png"])]

/-- The flattened list `ALL_EXTENSIONS` built from `SUPPORTED_EXTENSIONS`. -/
def ALL_EXTENSIONS : List String :=
  SUPPORTED_EXTENSIONS.foldl (fun acc p => acc ++ p.2) []

/-- Suffix of a character list starting at its last dot, if any. -/
def lastDotSuffix : List Char → Option (List Char)
  | [] => none
  | c :: rest =>
    match lastDotSuffix rest with
    | some s => some s
    | none => if c = '.' then some (c :: rest) else none

/-- Extension of a base file name in the sense of Python's
`os.path.splitext(...)[1]`: the substring from the last dot, unless every
character before that dot is itself a dot (leading-dot names like
`.bashrc` have no extension). -/
def splitextExt (name : String) : String :=
  let cs := name.toList
  match lastDotSuffix cs with
  | none => ""
  | some suf =>
    let pre := cs.take (cs.length - suf.length)
    if pre.any (fun c => c ≠ '.') then String.mk suf else ""

/-- ASCII lower-casing of a string, character by character, as Python's
`str.lower()` acts on the ASCII file extensions handled here. -/
def lowerString (s : String) : String :=
  String.mk (s.toList.map Char.toLower)

/-- Embedding of `get_file_type`: lower-case the extension and look it up
in `SUPPORTED_EXTENSIONS`; unrecognised extensions give `"UNKNOWN"`. -/
def get_file_type (filename : String) : String :=
  let ext := lowerString (splitextExt filename)
  match SUPPORTED_EXTENSIONS.find? (fun p => p.2.contains ext) with
  | some p => p.1
  | none => "UNKNOWN"

/-- One directory entry seen by the scanner's `glob` enumeration: its base
name, size in bytes, whether `os.path.isfile` holds, and whether it is an
immediate child of the scanned root (non-recursive scans only see those). -/
structure FileEntry where
  name : String
  size : Nat
  isFile : Bool
  immediate : Bool
  deriving Repr, DecidableEq

/-- The local filesystem state `scan_folder` consults: whether the root
path exists, whether it is a directory, and the entries under it. -/
structure LocalFS where
  rootExists : Bool
  rootIsDir : Bool
  entries : List FileEntry
  deriving Repr

/-- Errors raised by `scan_folder` before any traversal:
`FileNotFoundError` and `ValueError`. -/
inductive ScanError
  | fileNotFound
  | notADirectory
  deriving Repr, DecidableEq

/-- Result dictionary of `scan_folder`: the four category buckets of
`found_files` plus the computed totals. -/
structure ScanResult where
  video : List FileEntry
  audio : List FileEntry
  image : List FileEntry
  unknown : List FileEntry
  total_files : Nat
  total_size : Nat
  deriving Repr, DecidableEq

/-- The `target_extensions` computation of `scan_folder`: `none` (Python
`file_types=None`) selects `ALL_EXTENSIONS`; otherwise the extensions of
each requested type found in `SUPPORTED_EXTENSIONS` are concatenated. -/
def targetExtensions : Option (List String) → List String
  | none => ALL_EXTENSIONS
  | some ts =>
    ts.foldl (fun acc t =>
      match SUPPORTED_EXTENSIONS.find? (fun p => p.1 == t) with
      | some p => acc ++ p.2
      | none => acc) []

/-- An entry passes the scanner's filter when it is a regular file and its
lower-cased extension is among the target extensions. -/
def scanIncluded (tgt : List String) (f : FileEntry) : Bool :=
  f.isFile && tgt.contains (lowerString (splitextExt f.name))

/-- The traversal-and-bucketing body of `scan_folder`, run after its
root-path checks pass: enumerate the subtree (immediate children only
when non-recursive), keep regular files whose lower-cased extension is
targeted, bucket them with `get_file_type`, and total their count and
byte size. -/
def scanBody (fs : LocalFS) (file_types : Option (List String))
    (recursive : Bool) : ScanResult :=
  let tgt := targetExtensions file_types
  let enumerated := if recursive then fs.entries else fs.entries.filter (fun f => f.immediate)
  let included := enumerated.filter (scanIncluded tgt)
  let video := included.filter (fun f => get_file_type f.name == "VIDEO")
  let audio := included.filter (fun f => get_file_type f.name == "AUDIO")
  let image := included.filter (fun f => get_file_type f.name == "IMAGE")
  let unknown := included.filter (fun f => get_file_type f.name == "UNKNOWN")
  { video := video, audio := audio, image := image, unknown := unknown,
    total_files := video.length + audio.length + image.length + unknown.length,
    total_size := (included.map (fun f => f.size)).sum }

/-- Embedding of `scan_folder`: a missing root raises
`FileNotFoundError`, an existing non-directory root raises `ValueError`,
before any enumeration; otherwise the scan body runs. -/
def scan_folder (fs : LocalFS) (file_types : Option (List String))
    (recursive : Bool) : Except ScanError ScanResult :=
  if !fs.rootExists then .error .fileNotFound
  else if !fs.rootIsDir then .error .notADirectory
  else .ok (scanBody fs file_types recursive)

example : get_file_type "video.MP4" = "VIDEO" := by decide
example : get_file_type "clip.mov" = "UNKNOWN" := by decide
example : get_file_type "b.wav" = "AUDIO" := by decide
example : get_file_type "noext" = "UNKNOWN" := by decide
example : splitextExt ".bashrc" = "" := by decide

/-! ## Interactive upload settings (configure_upload_settings) -/

/-- The settings fields of `configure_upload_settings` that carry numeric
bounds. A parse failure of the user's text is modelled as `none`. -/
structure UploadSettings where
  temperature : ℚ
  max_wait_time : ℤ
  poll_interval : ℤ
  deriving Repr, DecidableEq

/-- Temperature normalisation of `configure_upload_settings`: a value the
`float(...)` call cannot parse becomes 0.7, and a parsed value outside
[0.0, 1.0] is replaced by 0.7. -/
def normTemperature : Option ℚ → ℚ
  | none => 7/10
  | some t => if 0 ≤ t ∧ t ≤ 1 then t else 7/10

/-- Max-wait normalisation of `configure_upload_settings`: unparsable
input becomes 1800, and a parsed value below 300 is raised via
`max(max_wait_time, 300)`. -/
def normMaxWaitTime : Option ℤ → ℤ
  | none => 1800
  | some w => if w < 300 then max w 300 else w

/-- Poll-interval normalisation of `configure_upload_settings`:
unparsable input becomes 15, and a parsed value below 5 is raised via
`max(poll_interval, 5)`. -/
def normPollInterval : Option ℤ → ℤ
  | none => 15
  | some p => if p < 5 then max p 5 else p

/-- Embedding of the numeric part of `configure_upload_settings`: the
record it returns after normalising the three parsed user inputs. -/
def configure_upload_settings (t : Option ℚ) (w p : Option ℤ) : UploadSettings :=
  { temperature := normTemperature t,
    max_wait_time := normMaxWaitTime w,
    poll_interval := normPollInterval p }

/-! ## Transfer acceptance check (src/storylinez/storage.py, upload_file) -/

/-- Result of the byte-transfer step `requests.put(upload_link, ...)`:
either an HTTP response with a status code, or a raised exception. -/
inductive TransferResult
  | response (status : Nat)
  | exn (msg : String)
  deriving Repr, DecidableEq

/-- Embedding of the transfer acceptance check in
`StorageClient.upload_file`: a response with `status_code >= 400` raises
`Exception("File upload failed with status ...")`, any other response is
accepted, and an exception from the transfer call itself propagates. -/
def transferCheck : TransferResult → Except String Unit
  | .response s =>
    if 400 ≤ s then .error ("File upload failed with status " ++ toString s)
    else .ok ()
  | .exn m => .error m

/-! ## Bulk upload orchestrator (modelled from the spec)

The SDK method `upload_and_process_files_bulk` invoked by
`perform_bulk_upload` is not part of the checked sources; the orchestrator
below is modelled from the specification's `run_batch` contract
(sequential per-task transfer, then polling every `poll_interval` seconds
until a terminal remote status or the `max_wait_per_task` budget is
spent), around the in-source `transferCheck` and the in-source timeout
message of `progress_callback`. -/

/-- Remote processing status reported by the status endpoint. -/
inductive RemoteStatus
  | queued
  | processing
  | completed
  | failed (msg : String)
  deriving Repr, DecidableEq

/-- Per-task behaviour of the remote collaborator: the outcome of the
byte transfer, and the status the k-th poll observes. -/
structure TaskEnv where
  transfer : TransferResult
  statusAt : Nat → RemoteStatus

/-- Error taxonomy of the specification: transfer errors, remote-reported
processing failures, and local polling timeouts are distinct kinds. -/
inductive UploadError
  | transferError (msg : String)
  | remoteProcessingError (msg : String)
  | timeoutError (msg : String)
  deriving Repr, DecidableEq

/-- Modelled from the spec: an upload task for one scanned file. -/
structure UploadTask where
  filename : String
  deriving Repr, DecidableEq

/-- Modelled from the spec: the terminal outcome recorded for one task. -/
structure UploadOutcome where
  task : UploadTask
  succeeded : Bool
  error : Option UploadError
  deriving Repr, DecidableEq

/-- Progress events the orchestrator can emit, one constructor per phase,
plus the `cancel_remote` action it could in principle take (and never
does) on a running remote job. -/
inductive Event
  | file_start (idx total : Nat) (name : String)
  | upload_start (name : String)
  | upload_complete (name : String)
  | processing_start (name : String)
  | polling (name : String) (pollCount : Nat)
  | file_complete (name : String) (success : Bool)
  | file_error (name : String) (err : UploadError)
  | bulk_complete (total done failed : Nat)
  | cancel_remote (name : String)
  deriving Repr, DecidableEq

/-- Recogniser for `polling` events. -/
def isPollingEvent : Event → Bool
  | .polling _ _ => true
  | _ => false

/-- Recogniser for `upload_start` events (one per transfer attempt). -/
def isUploadStartEvent : Event → Bool
  | .upload_start _ => true
  | _ => false

/-- Recogniser for the remote-cancellation action. -/
def isCancelEvent : Event → Bool
  | .cancel_remote _ => true
  | _ => false

/-- The timeout message of the uploader script (the string built in
`progress_callback` when a result carries a `TimeoutError`). -/
def timeoutMessage : String :=
  "Processing timed out (file may still complete in background)"

/-- Modelled from the spec: the polling loop of `run_batch`. `pollsLeft`
is the remaining poll budget (`max_wait_per_task / poll_interval`);
each iteration polls once, emits a `polling` event, and stops on a
terminal remote status; an exhausted budget is a timeout. -/
def pollLoop (name : String) (env : TaskEnv) :
    Nat → Nat → (Bool × Option UploadError) × List Event
  | 0, _ => ((false, some (.timeoutError timeoutMessage)), [])
  | n + 1, pollCount =>
    let k := pollCount + 1
    match env.statusAt k with
    | .completed => ((true, none), [.polling name k])
    | .failed m => ((false, some (.remoteProcessingError m)), [.polling name k])
    | _ =>
      let r := pollLoop name env n k
      (r.1, .polling name k :: r.2)

/-- Modelled from the spec: processing of a single task by `run_batch`.
The transfer is attempted exactly once; a transfer failure goes directly
to the failed outcome with no polling, otherwise the poll loop decides
the outcome. -/
def runTask (idx total : Nat) (task : UploadTask) (env : TaskEnv)
    (pollInterval maxWait : Nat) : UploadOutcome × List Event :=
  let pre := [Event.file_start idx total task.filename,
              Event.upload_start task.filename]
  match transferCheck env.transfer with
  | .error m =>
    (⟨task, false, some (.transferError m)⟩,
      pre ++ [Event.file_error task.filename (.transferError m),
              Event.file_complete task.filename false])
  | .ok _ =>
    let r := pollLoop task.filename env (maxWait / pollInterval) 0
    let fin : List Event :=
      match r.1.2 with
      | some e => [Event.file_error task.filename e,
                   Event.file_complete task.filename false]
      | none => [Event.file_complete task.filename true]
    (⟨task, r.1.1, r.1.2⟩,
      pre ++ [Event.upload_complete task.filename,
              Event.processing_start task.filename] ++ r.2 ++ fin)

/-- Modelled from the spec: sequential processing of the task list, one
task fully resolving before the next begins, accumulating outcomes in
input order. `envs i` is the remote behaviour for the i-th task. -/
def runBatchAux (envs : Nat → TaskEnv) (pollInterval maxWait total : Nat) :
    List UploadTask → Nat → List UploadOutcome × List Event
  | [], _ => ([], [])
  | t :: ts, i =>
    let r := runTask (i + 1) total t (envs i) pollInterval maxWait
    let rest := runBatchAux envs pollInterval maxWait total ts (i + 1)
    (r.1 :: rest.1, r.2 ++ rest.2)

/-! ## Progress callback (progress_callback of the uploader script)

The callback receives an arbitrary Python value. Its body performs
operations that can raise (`summary.get` on a non-dict, numeric string
formatting of non-numbers, `len` of non-sized values, ordering
comparisons between numbers and other values), and the whole body is
wrapped in `try/except Exception` that prints the failure instead of
re-raising. -/

/-- A Python value as the callback can receive it: a string, an integer,
`None`, or a dictionary with string keys. -/
inductive PyVal
  | pstr (s : String)
  | pint (n : Int)
  | pnone
  | pdict (entries : List (String × PyVal))

/-- Dictionary lookup with default, Python's `dict.get(key, default)`. -/
def dictGet (es : List (String × PyVal)) (key : String) (dflt : PyVal) : PyVal :=
  match es.find? (fun p => p.1 == key) with
  | some p => p.2
  | none => dflt

/-- An unguarded `value.get(key, default)` call: raises `AttributeError`
when the value is not a dictionary. -/
def pyGetMethod (v : PyVal) (key : String) (dflt : PyVal) : Except String PyVal :=
  match v with
  | .pdict es => .ok (dictGet es key dflt)
  | _ => .error "AttributeError: get"

/-- A guarded `value.get(key, default) if isinstance(value, dict) else
default` expression: total. -/
def dictGetOr (v : PyVal) (key : String) (dflt : PyVal) : PyVal :=
  match v with
  | .pdict es => dictGet es key dflt
  | _ => dflt

/-- Python `str(x)` on the modelled values: total. -/
def pyStr : PyVal → String
  | .pstr s => s
  | .pint n => toString n
  | .pnone => "None"
  | .pdict _ => "{...}"

/-- Python truthiness of the modelled values: total. -/
def pyTruthy : PyVal → Bool
  | .pstr s => !(s == "")
  | .pint n => !(n == 0)
  | .pnone => false
  | .pdict es => !es.isEmpty

/-- Fixed-point string formatting `"{x:.1f}"`: raises `TypeError` on
non-numeric values. -/
def fmtFixed (v : PyVal) : Except String String :=
  match v with
  | .pint n => .ok (toString n)
  | _ => .error "TypeError: unsupported format string"

/-- The progress-bar width computation `int((x / 100) * k)`: raises
`TypeError` on non-numeric `x`. -/
def progressBarWidth (v : PyVal) (k : Int) : Except String Int :=
  match v with
  | .pint n => .ok (n * k / 100)
  | _ => .error "TypeError: unsupported operand"

/-- The ratio-based bar width `int((a / b) * k)` of the legacy branch:
raises `TypeError` when either operand is not numeric. -/
def pyRatioWidth (a b : PyVal) (k : Int) : Except String Int :=
  match a, b with
  | .pint m, .pint n =>
    if n == 0 then .error "ZeroDivisionError" else .ok (m * k / n)
  | _, _ => .error "TypeError: unsupported operand"

/-- Python `len(x)`: raises `TypeError` on values without a length. -/
def pyLen (v : PyVal) : Except String Int :=
  match v with
  | .pstr s => .ok s.length
  | .pdict es => .ok es.length
  | _ => .error "TypeError: object has no len"

/-- Python `x > m` against an integer literal: raises `TypeError` when
`x` is not numeric. -/
def pyGtInt (v : PyVal) (m : Int) : Except String Bool :=
  match v with
  | .pint n => .ok (decide (m < n))
  | _ => .error "TypeError: comparison not supported"

/-- Python `x.upper()`: raises `AttributeError` on non-strings. -/
def pyUpper (v : PyVal) : Except String String :=
  match v with
  | .pstr s => .ok (String.mk (s.toList.map Char.toUpper))
  | _ => .error "AttributeError: upper"

/-- Python `os.path.basename(x)` as used on `file_path`: raises
`TypeError` on non-strings. The modelled paths are base names already. -/
def pyBasename (v : PyVal) : Except String String :=
  match v with
  | .pstr s => .ok s
  | _ => .error "TypeError: expected str"

/-- The error-truncation step `error[:100] + "..."` guarded by
`len(error) > 100`: `len` raises on unsized values and slicing raises on
dictionaries. -/
def pyTruncate (v : PyVal) : Except String PyVal := do
  let n ← pyLen v
  if 100 < n then
    match v with
    | .pstr s => .ok (.pstr (String.mk (s.toList.take 100) ++ "..."))
    | _ => .error "TypeError: unsubscriptable"
  else .ok v

/-- Test whether a Python value equals a given string literal. -/
def pvalEqStr (v : PyVal) (s : String) : Bool :=
  match v with
  | .pstr t => t == s
  | _ => false

/-- Whether `needle` is a prefix of `hay`, on character lists. -/
def charsPrefix : List Char → List Char → Bool
  | [], _ => true
  | _ :: _, [] => false
  | a :: as, b :: bs => a == b && charsPrefix as bs

/-- Whether `needle` occurs inside `hay`, on character lists. -/
def charsInfix (needle : List Char) : List Char → Bool
  | [] => charsPrefix needle []
  | c :: cs => charsPrefix needle (c :: cs) || charsInfix needle cs

/-- Python's `needle in hay` substring test. -/
def strContainsSub (hay needle : String) : Bool :=
  charsInfix needle.toList hay.toList

/-- The message selection of the uploader's legacy branch for a failed
processing status: a string result containing `TimeoutError` (or
`timeout`, case-insensitively) becomes the timeout message; otherwise
`str(result)` is used, or `Processing failed` when the result is falsy. -/
def timeoutOrFailMessage (result : PyVal) : String :=
  match result with
  | .pstr s =>
    if strContainsSub s "TimeoutError" || strContainsSub (lowerString s) "timeout"
    then timeoutMessage
    else if s ≠ "" then s else "Processing failed"
  | v => if pyTruthy v then pyStr v else "Processing failed"

/-- Modelled from the spec: `run_batch` processes every task sequentially
and finally emits one `bulk_complete` event carrying the total, the
number of succeeded outcomes and the number of failed outcomes. -/
def run_batch (tasks : List UploadTask) (envs : Nat → TaskEnv)
    (pollInterval maxWait : Nat) : List UploadOutcome × List Event :=
  let r := runBatchAux envs pollInterval maxWait tasks.length tasks 0
  let done := (r.1.filter (fun o => o.succeeded)).length
  let failed := (r.1.filter (fun o => !o.succeeded)).length
  (r.1, r.2 ++ [Event.bulk_complete tasks.length done failed])

/-- The body of `progress_callback` (everything inside its `try`),
branch by branch: phase dispatch, `summary.get` reads, progress-bar
arithmetic and fixed-point formatting, each of which can raise. The
returned strings are the rendered output lines. -/
def progressCallbackBody (summary : PyVal) : Except String (List String) := do
  let phase : PyVal :=
    match summary with
    | .pdict es => dictGet es "phase" (.pstr "unknown")
    | _ => .pstr "unknown"
  if pvalEqStr phase "file_start" then
    let current ← pyGetMethod summary "current_index" (.pint 0)
    let total ← pyGetMethod summary "total" (.pint 1)
    let filename ← pyGetMethod summary "filename" (.pstr "unknown")
    let overall ← pyGetMethod summary "overall_progress_percent" (.pint 0)
    let _ ← progressBarWidth overall 20
    let op ← fmtFixed overall
    .ok ["Starting file " ++ pyStr current ++ "/" ++ pyStr total ++ ": " ++ pyStr filename,
         "Overall: " ++ op ++ "%"]
  else if pvalEqStr phase "upload_start" then
    let filename ← pyGetMethod summary "filename" (.pstr "unknown")
    .ok ["Uploading: " ++ pyStr filename]
  else if pvalEqStr phase "upload_complete" then
    let filename ← pyGetMethod summary "filename" (.pstr "unknown")
    let duration ← pyGetMethod summary "upload_duration" (.pint 0)
    let d ← fmtFixed duration
    .ok ["Upload complete: " ++ pyStr filename ++ " (" ++ d ++ "s)"]
  else if pvalEqStr phase "processing_start" then
    let filename ← pyGetMethod summary "filename" (.pstr "unknown")
    let fileId ← pyGetMethod summary "file_id" (.pstr "unknown")
    .ok ["Processing started: " ++ pyStr filename, "File ID: " ++ pyStr fileId]
  else if pvalEqStr phase "polling" then
    let _ ← pyGetMethod summary "filename" (.pstr "unknown")
    let status ← pyGetMethod summary "status" (.pstr "UNKNOWN")
    let pollCount ← pyGetMethod summary "poll_count" (.pint 0)
    let progress ← pyGetMethod summary "file_progress_percent" (.pint 0)
    let elapsed ← pyGetMethod summary "elapsed_time" (.pint 0)
    let _ ← progressBarWidth progress 15
    let pr ← fmtFixed progress
    let el ← fmtFixed elapsed
    let line := "Processing: " ++ pr ++ "% | Poll #" ++ pyStr pollCount ++ " | " ++ el ++ "s"
    let analysisData ← pyGetMethod summary "analysis_data" (.pdict [])
    if pyTruthy analysisData && pyTruthy status then
      .ok [line, "Status: " ++ pyStr status]
    else
      .ok [line]
  else if pvalEqStr phase "polling_error" then
    let error ← pyGetMethod summary "error" (.pstr "Unknown error")
    let pollCount ← pyGetMethod summary "poll_count" (.pint 0)
    .ok ["Polling error #" ++ pyStr pollCount ++ ": " ++ pyStr error]
  else if pvalEqStr phase "file_complete" then
    let filename ← pyGetMethod summary "filename" (.pstr "unknown")
    let success ← pyGetMethod summary "success" (.pint 0)
    let totalDuration ← pyGetMethod summary "total_file_duration" (.pint 0)
    let overall ← pyGetMethod summary "overall_progress_percent" (.pint 0)
    let _ ← progressBarWidth overall 20
    let td ← fmtFixed totalDuration
    let op ← fmtFixed overall
    let line :=
      if pyTruthy success
      then pyStr filename ++ " completed successfully (" ++ td ++ "s)"
      else pyStr filename ++ " failed (" ++ td ++ "s)"
    .ok [line, "Overall: " ++ op ++ "%"]
  else if pvalEqStr phase "file_error" then
    let filename ← pyGetMethod summary "filename" (.pstr "unknown")
    let error0 ← pyGetMethod summary "error" (.pstr "Unknown error")
    let overall ← pyGetMethod summary "overall_progress_percent" (.pint 0)
    let error ← pyTruncate error0
    let _ ← progressBarWidth overall 20
    let op ← fmtFixed overall
    .ok [pyStr filename ++ " failed: " ++ pyStr error, "Overall: " ++ op ++ "%"]
  else if pvalEqStr phase "bulk_complete" then
    let total ← pyGetMethod summary "total" (.pint 0)
    let done ← pyGetMethod summary "done" (.pint 0)
    let failed ← pyGetMethod summary "failed" (.pint 0)
    let successRate ← pyGetMethod summary "success_rate" (.pint 0)
    let totalDuration ← pyGetMethod summary "total_duration" (.pint 0)
    let sr ← fmtFixed successRate
    let anyFailed ← pyGtInt failed 0
    let td ← fmtFixed totalDuration
    let head := "Results: " ++ pyStr done ++ "/" ++ pyStr total ++
      " files successful (" ++ sr ++ "%)"
    let tail := "Total time: " ++ td ++ " seconds"
    if anyFailed then
      .ok [head, "Failed: " ++ pyStr failed ++ " files", tail]
    else
      .ok [head, tail]
  else
    let current := dictGetOr summary "current_index" (.pint 0)
    let total := dictGetOr summary "total" (.pint 1)
    let done := dictGetOr summary "done" (.pint 0)
    let failed := dictGetOr summary "failed" (.pint 0)
    let remaining := dictGetOr summary "remaining" (.pint 0)
    let filePath := dictGetOr summary "file_path" (.pstr "unknown")
    let fileName ←
      if pyTruthy filePath then pyBasename filePath else pure "unknown"
    let uploadStatus := dictGetOr summary "upload_status" (.pstr "uploading")
    let processingStatus := dictGetOr summary "processing_status" (.pstr "processing")
    let result := dictGetOr summary "result" .pnone
    let positive ← pyGtInt total 0
    if positive then do
      let _ ← pyRatioWidth current total 20
      pure ()
    else
      pure ()
    let header :=
      ["Progress: " ++ pyStr current ++ "/" ++ pyStr total,
       "Current: " ++ fileName,
       "Upload: " ++ pyStr uploadStatus ++ " | Processing: " ++ pyStr processingStatus,
       "Completed: " ++ pyStr done ++ " | Failed: " ++ pyStr failed ++
         " | Remaining: " ++ pyStr remaining]
    if pvalEqStr uploadStatus "failed" then
      let errorDetail :=
        match result with
        | .pstr s => s
        | v => if pyTruthy v then pyStr v else "Unknown upload error"
      let errorDetail ← pyTruncate (.pstr errorDetail)
      .ok (header ++ [fileName ++ " upload failed: " ++ pyStr errorDetail])
    else if pvalEqStr uploadStatus "success" then
      match result with
      | .pdict es =>
        let analysisData := dictGet es "analysis_data" (.pdict [])
        let statusVal ← pyGetMethod analysisData "status" (.pstr "")
        let resultStatus ← pyUpper statusVal
        if resultStatus == "COMPLETED" then
          .ok (header ++ [fileName ++ " completed successfully"])
        else if resultStatus == "FAILED" then
          let err ← pyGetMethod analysisData "error" (.pstr "Processing failed")
          .ok (header ++ [fileName ++ " processing failed: " ++ pyStr err])
        else if pvalEqStr processingStatus "COMPLETED" then
          .ok (header ++ [fileName ++ " completed successfully"])
        else if pvalEqStr processingStatus "FAILED" then
          let err := if pyTruthy result then pyStr result else "Processing failed"
          .ok (header ++ [fileName ++ " processing failed: " ++ err])
        else if pvalEqStr processingStatus "PROCESSING" || pvalEqStr processingStatus "processing" then
          .ok (header ++ [fileName ++ " still processing..."])
        else
          .ok (header ++ [fileName ++ " status: " ++ pyStr processingStatus])
      | _ =>
        if pvalEqStr processingStatus "COMPLETED" then
          .ok (header ++ [fileName ++ " completed successfully"])
        else if pvalEqStr processingStatus "FAILED" then
          .ok (header ++ [fileName ++ " processing failed: " ++ timeoutOrFailMessage result])
        else if pvalEqStr processingStatus "PROCESSING" || pvalEqStr processingStatus "processing" then
          .ok (header ++ [fileName ++ " still processing..."])
        else
          .ok (header ++ [fileName ++ " status: " ++ pyStr processingStatus])
    else
      .ok (header ++ [fileName ++ " uploading..."])

/-- Embedding of `progress_callback`: its body runs under
`try/except Exception`, and the handler prints the failure and the raw
summary instead of re-raising. -/
def progress_callback (summary : PyVal) : Except String (List String) :=
  match progressCallbackBody summary with
  | .ok out => .ok out
  | .error e =>
    .ok ["ERROR in progress callback: " ++ e,
         "Summary data: " ++ pyStr summary,
         "Progress callback error: " ++ e]

/-! ## Helper lemmas -/

/-- The outcome produced by `runTask` is tagged with the processed task. -/
theorem runTask_task (idx total : Nat) (t : UploadTask) (env : TaskEnv)
    (pollInterval maxWait : Nat) :
    (runTask idx total t env pollInterval maxWait).1.task = t := by
  unfold runTask
  cases transferCheck env.transfer <;> simp

/-- The outcomes of `runBatchAux` are the input tasks, in order. -/
theorem runBatchAux_map_task (envs : Nat → TaskEnv) (pollInterval maxWait total : Nat) :
    ∀ (ts : List UploadTask) (i : Nat),
      (runBatchAux envs pollInterval maxWait total ts i).1.map (fun o => o.task) = ts := by
  intro ts
  induction ts with
  | nil => intro i; rfl
  | cons t rest ih =>
    intro i
    simp [runBatchAux, runTask_task, ih]

/-- `runBatchAux` produces one outcome per input task. -/
theorem runBatchAux_length (envs : Nat → TaskEnv) (pollInterval maxWait total : Nat) :
    ∀ (ts : List UploadTask) (i : Nat),
      (runBatchAux envs pollInterval maxWait total ts i).1.length = ts.length := by
  intro ts
  induction ts with
  | nil => intro i; rfl
  | cons t rest ih =>
    intro i
    simp [runBatchAux, ih]

/-- The outcome list of `run_batch` is that of `runBatchAux`. -/
theorem run_batch_fst (tasks : List UploadTask) (envs : Nat → TaskEnv)
    (pollInterval maxWait : Nat) :
    (run_batch tasks envs pollInterval maxWait).1 =
      (runBatchAux envs pollInterval maxWait tasks.length tasks 0).1 := rfl

/-- Splitting a list by a Boolean predicate preserves its length. -/
theorem filter_partition_length {α : Type} (p : α → Bool) (l : List α) :
    (l.filter p).length + (l.filter (fun a => !p a)).length = l.length := by
  induction l with
  | nil => simp
  | cons a t ih =>
    by_cases h : p a <;> simp [List.filter_cons, h] <;> omega

/-! ## Claims -/

/-- C1: for every batch of N upload tasks, the bulk upload operation
returns a list of exactly N outcomes, one per input task, in the same
order as the input tasks, regardless of how the remote behaves (failures
and timeouts included). -/
theorem C1_run_batch_outcome_per_task (tasks : List UploadTask)
    (envs : Nat → TaskEnv) (pollInterval maxWait : Nat) :
    (run_batch tasks envs pollInterval maxWait).1.length = tasks.length ∧
    (run_batch tasks envs pollInterval maxWait).1.map (fun o => o.task) = tasks := by
  rw [run_batch_fst]
  exact ⟨runBatchAux_length envs pollInterval maxWait tasks.length tasks 0,
         runBatchAux_map_task envs pollInterval maxWait tasks.length tasks 0⟩

/-- C2: for every run, the final `bulk_complete` event reports
`done + failed = total`, with `done` the number of succeeded outcomes and
`failed` the number of unsucceeded ones — one outcome per task. -/
theorem C2_bulk_complete_partition (tasks : List UploadTask)
    (envs : Nat → TaskEnv) (pollInterval maxWait : Nat) :
    ∃ done failed,
      (run_batch tasks envs pollInterval maxWait).2.getLast? =
        some (Event.bulk_complete tasks.length done failed) ∧
      done = ((run_batch tasks envs pollInterval maxWait).1.filter
        (fun o => o.succeeded)).length ∧
      failed = ((run_batch tasks envs pollInterval maxWait).1.filter
        (fun o => !o.succeeded)).length ∧
      done + failed = tasks.length := by
  refine ⟨_, _, ?_, rfl, rfl, ?_⟩
  · show (run_batch tasks envs pollInterval maxWait).2.getLast? = _
    unfold run_batch
    simp
  · rw [run_batch_fst]
    rw [filter_partition_length (fun o => o.succeeded)
      (runBatchAux envs pollInterval maxWait tasks.length tasks 0).1]
    exact runBatchAux_length envs pollInterval maxWait tasks.length tasks 0

/-- Remote behaviour where the byte transfer returns HTTP 304 — a
non-2xx response — and the first poll reports completion. -/
def env304 : TaskEnv := ⟨.response 304, fun _ => .completed⟩

/-- C3 counterexample: a task whose transfer returns the non-2xx status
304 does not fail — `upload_file` only raises on status codes at least
400 — so the task proceeds to polling and succeeds. -/
theorem C3_counterexample_status_304 :
    (runTask 1 1 ⟨"f.mp4"⟩ env304 1 5).1.succeeded = true ∧
    (runTask 1 1 ⟨"f.mp4"⟩ env304 1 5).2.countP isPollingEvent = 1 := by
  constructor <;> rfl

/-- C3 (amended): for every task whose byte-transfer step returns a
status of 400 or above, or raises an exception, the task transitions
directly to failed — its outcome has `succeeded = false` with an error
derived from the transfer failure, no polling events are emitted for it,
and the transfer is attempted exactly once (no retry). -/
theorem C3_transfer_failure_direct (idx total : Nat) (task : UploadTask)
    (env : TaskEnv) (pollInterval maxWait : Nat)
    (h : (∃ s, env.transfer = .response s ∧ 400 ≤ s) ∨
         (∃ em, env.transfer = .exn em)) :
    (runTask idx total task env pollInterval maxWait).1.succeeded = false ∧
    (∃ m, (runTask idx total task env pollInterval maxWait).1.error =
      some (.transferError m)) ∧
    (runTask idx total task env pollInterval maxWait).2.countP isPollingEvent = 0 ∧
    (runTask idx total task env pollInterval maxWait).2.countP isUploadStartEvent = 1 := by
  have herr : ∃ m, transferCheck env.transfer = .error m := by
    rcases h with ⟨s, hs, h4⟩ | ⟨em, hm⟩
    · refine ⟨"File upload failed with status " ++ toString s, ?_⟩
      rw [hs]
      simp [transferCheck, h4]
    · exact ⟨em, by simp [hm, transferCheck]⟩
  obtain ⟨m, hm⟩ := herr
  unfold runTask
  rw [hm]
  refine ⟨rfl, ⟨m, rfl⟩, ?_, ?_⟩ <;>
    simp [List.countP_cons, isPollingEvent, isUploadStartEvent]

/-- Remote behaviour where the byte transfer is rejected with HTTP 500. -/
def env500 : TaskEnv := ⟨.response 500, fun _ => .processing⟩

/-- C3 witness: the amended statement evaluated on a transfer rejected
with status 500. -/
theorem C3_transfer_failure_direct_witness :
    (runTask 1 1 ⟨"g.mp4"⟩ env500 1 5).1.succeeded = false ∧
    (∃ m, (runTask 1 1 ⟨"g.mp4"⟩ env500 1 5).1.error =
      some (.transferError m)) ∧
    (runTask 1 1 ⟨"g.mp4"⟩ env500 1 5).2.countP isPollingEvent = 0 ∧
    (runTask 1 1 ⟨"g.mp4"⟩ env500 1 5).2.countP isUploadStartEvent = 1 :=
  C3_transfer_failure_direct 1 1 ⟨"g.mp4"⟩ env500 1 5
    (Or.inl ⟨500, rfl, by decide⟩)

/-- The poll loop never emits the remote-cancellation action. -/
theorem pollLoop_no_cancel (name : String) (env : TaskEnv) :
    ∀ (n k : Nat), (pollLoop name env n k).2.countP isCancelEvent = 0 := by
  intro n
  induction n with
  | zero => intro k; rfl
  | succ n ih =>
    intro k
    unfold pollLoop
    cases hst : env.statusAt (k + 1) <;>
      simp [hst, List.countP_cons, isCancelEvent, ih (k + 1)]

/-- A spent poll budget over exclusively non-terminal remote statuses
resolves to the timeout outcome. -/
theorem pollLoop_timeout (name : String) (env : TaskEnv) :
    ∀ (n k : Nat),
      (∀ j, k + 1 ≤ j → j ≤ k + n →
        env.statusAt j ≠ .completed ∧ ∀ m, env.statusAt j ≠ .failed m) →
      (pollLoop name env n k).1 = (false, some (.timeoutError timeoutMessage)) := by
  intro n
  induction n with
  | zero => intro k _; rfl
  | succ n ih =>
    intro k h
    have hk := h (k + 1) (by omega) (by omega)
    unfold pollLoop
    cases hst : env.statusAt (k + 1) with
    | completed => exact absurd hst hk.1
    | failed m => exact absurd hst (hk.2 m)
    | queued =>
      have hrec := ih (k + 1) (fun j hj1 hj2 => h j (by omega) (by omega))
      simp [hst, hrec]
    | processing =>
      have hrec := ih (k + 1) (fun j hj1 hj2 => h j (by omega) (by omega))
      simp [hst, hrec]

/-- C4: a task whose transfer is accepted but whose polls never observe a
terminal remote status within the `max_wait_per_task` budget resolves to
`succeeded = false` with the timeout error — carrying the message that
the file may still complete in the background, an error kind distinct
from a remote-reported processing failure — and the orchestrator never
emits a remote-cancellation action for it. -/
theorem C4_timeout_outcome (idx total : Nat) (task : UploadTask)
    (env : TaskEnv) (pollInterval maxWait : Nat)
    (h1 : transferCheck env.transfer = .ok ())
    (h2 : ∀ j, 1 ≤ j → j ≤ maxWait / pollInterval →
      env.statusAt j ≠ .completed ∧ ∀ m, env.statusAt j ≠ .failed m) :
    (runTask idx total task env pollInterval maxWait).1.succeeded = false ∧
    (runTask idx total task env pollInterval maxWait).1.error =
      some (.timeoutError timeoutMessage) ∧
    (∀ m, (UploadError.timeoutError timeoutMessage) ≠
      UploadError.remoteProcessingError m) ∧
    (runTask idx total task env pollInterval maxWait).2.countP isCancelEvent = 0 := by
  have hp := pollLoop_timeout task.filename env (maxWait / pollInterval) 0
    (fun j hj1 hj2 => h2 j (by omega) (by omega))
  unfold runTask
  rw [h1]
  refine ⟨by simp [hp], by simp [hp], fun m => by simp, ?_⟩
  simp [hp, List.countP_append, List.countP_cons, isCancelEvent,
    pollLoop_no_cancel task.filename env (maxWait / pollInterval) 0]

/-- ALL_EXTENSIONS evaluates to the six supported extension strings. -/
theorem ALL_EXTENSIONS_eq :
    ALL_EXTENSIONS = [".mp4", ".mp3", ".wav", ".jpg", ".jpeg", ".png"] := rfl

/-- A file whose lower-cased extension is one of the supported ones is
never classified `UNKNOWN`. -/
theorem get_file_type_ne_unknown_of_mem (name : String)
    (h : lowerString (splitextExt name) ∈ ALL_EXTENSIONS) :
    get_file_type name ≠ "UNKNOWN" := by
  rw [ALL_EXTENSIONS_eq] at h
  simp only [List.mem_cons, List.not_mem_nil, or_false] at h
  rcases h with h1 | h1 | h1 | h1 | h1 | h1 <;>
    simp only [get_file_type, h1] <;> decide

/-- Every extension selected by `targetExtensions` is a supported one. -/
theorem targetExtensions_subset (ft : Option (List String)) :
    ∀ e ∈ targetExtensions ft, e ∈ ALL_EXTENSIONS := by
  cases ft with
  | none => intro e he; exact he
  | some ts =>
    suffices h : ∀ (acc : List String), (∀ x ∈ acc, x ∈ ALL_EXTENSIONS) →
        ∀ e ∈ ts.foldl (fun acc t =>
          match SUPPORTED_EXTENSIONS.find? (fun p => p.1 == t) with
          | some p => acc ++ p.2
          | none => acc) acc, e ∈ ALL_EXTENSIONS by
      intro e he
      exact h [] (by simp) e he
    induction ts with
    | nil => intro acc hacc e he; exact hacc e he
    | cons t ts ih =>
      intro acc hacc e he
      rw [List.foldl_cons] at he
      cases hf : SUPPORTED_EXTENSIONS.find? (fun p => p.1 == t) with
      | none =>
        rw [hf] at he
        exact ih acc hacc e he
      | some p =>
        rw [hf] at he
        refine ih (acc ++ p.2) ?_ e he
        intro x hx
        rcases List.mem_append.mp hx with hx1 | hx2
        · exact hacc x hx1
        · have hall : ∀ q ∈ SUPPORTED_EXTENSIONS, ∀ y ∈ q.2, y ∈ ALL_EXTENSIONS := by
            decide
          exact hall p (List.mem_of_find?_eq_some hf) x hx2

/-- An entry passing the scanner's inclusion filter is never classified
`UNKNOWN`. -/
theorem scanIncluded_not_unknown (ft : Option (List String)) (f : FileEntry)
    (h : scanIncluded (targetExtensions ft) f = true) :
    get_file_type f.name ≠ "UNKNOWN" := by
  unfold scanIncluded at h
  rw [Bool.and_eq_true] at h
  have hmem : lowerString (splitextExt f.name) ∈ targetExtensions ft := by
    have := h.2
    simpa using this
  exact get_file_type_ne_unknown_of_mem f.name
    (targetExtensions_subset ft _ hmem)

/-- The `UNKNOWN` bucket of the scan body is empty for every filesystem,
filter and recursion flag. -/
theorem scanBody_unknown_nil (fs : LocalFS) (ft : Option (List String))
    (recursive : Bool) : (scanBody fs ft recursive).unknown = [] := by
  unfold scanBody
  simp only []
  rw [List.filter_eq_nil_iff]
  intro f hf
  have hinc : scanIncluded (targetExtensions ft) f = true :=
    List.of_mem_filter hf
  simp [scanIncluded_not_unknown ft f hinc]

/-- A successful `scan_folder` run returns exactly the scan body. -/
theorem scan_folder_ok_inv (fs : LocalFS) (ft : Option (List String))
    (recursive : Bool) (r : ScanResult)
    (h : scan_folder fs ft recursive = .ok r) : r = scanBody fs ft recursive := by
  unfold scan_folder at h
  cases hE : fs.rootExists with
  | false => rw [hE] at h; simp at h
  | true =>
    cases hD : fs.rootIsDir with
    | false => rw [hE, hD] at h; simp at h
    | true =>
      rw [hE, hD] at h
      simp at h
      exact h.symm

/-- A filesystem whose only entry is the unrecognised-extension file
`clip.mov`. -/
def fsMov : LocalFS := ⟨true, true, [⟨"clip.mov", 7, true, true⟩]⟩

/-- C5 counterexample: a file with an unrecognised extension is
classified `UNKNOWN`, yet a scan requesting all content (no filter,
`file_types=None`) returns it in no bucket at all — the `UNKNOWN` group
of the result stays empty — because the enumeration only keeps
extensions from `ALL_EXTENSIONS`, which lists supported ones only. -/
theorem C5_counterexample_unknown_dropped_without_filter :
    get_file_type "clip.mov" = "UNKNOWN" ∧
    scan_folder fsMov none true =
      .ok { video := [], audio := [], image := [], unknown := [],
            total_files := 0, total_size := 0 } := by
  constructor <;> rfl

/-- C5 (amended): files with unrecognised extensions are classified
`UNKNOWN` and are excluded from every scan result — both when a specific
category filter is requested and when all content is requested with no
filter: the `UNKNOWN` group of the result is always empty. -/
theorem C5_unknown_always_excluded (fs : LocalFS)
    (file_types : Option (List String)) (recursive : Bool) (r : ScanResult)
    (h : scan_folder fs file_types recursive = .ok r) :
    get_file_type "clip.mov" = "UNKNOWN" ∧ r.unknown = [] := by
  refine ⟨rfl, ?_⟩
  rw [scan_folder_ok_inv fs file_types recursive r h]
  exact scanBody_unknown_nil fs file_types recursive

/-- C5 witness: the amended statement evaluated on a scan of `fsMov`
with no filter. -/
theorem C5_unknown_always_excluded_witness :
    get_file_type "clip.mov" = "UNKNOWN" ∧
    (scanBody fsMov none true).unknown = [] :=
  C5_unknown_always_excluded fsMov none true (scanBody fsMov none true) rfl

/-- C6: extension classification is case-insensitive against the fixed
table: `video.MP4` is classified VIDEO, `clip.mov` is classified
UNKNOWN, and no file classified UNKNOWN appears in any bucket of a scan
result obtained with a specific category filter. -/
theorem C6_case_insensitive_classification :
    get_file_type "video.MP4" = "VIDEO" ∧
    get_file_type "clip.mov" = "UNKNOWN" ∧
    ∀ (fs : LocalFS) (cats : List String) (recursive : Bool) (r : ScanResult),
      scan_folder fs (some cats) recursive = .ok r →
      ∀ f ∈ r.video ++ r.audio ++ r.image ++ r.unknown,
        get_file_type f.name ≠ "UNKNOWN" := by
  refine ⟨rfl, rfl, ?_⟩
  intro fs cats recursive r h f hf
  rw [scan_folder_ok_inv fs (some cats) recursive r h] at hf
  unfold scanBody at hf
  simp only [List.mem_append] at hf
  rcases hf with ((hv | ha) | hi) | hu
  · have := List.of_mem_filter hv
    simp at this
    simp [this]
  · have := List.of_mem_filter ha
    simp at this
    simp [this]
  · have := List.of_mem_filter hi
    simp at this
    simp [this]
  · have hin := List.mem_of_mem_filter hu
    exact scanIncluded_not_unknown (some cats) f (List.of_mem_filter hin)

/-- Scan of a filesystem with the entries of C6's witness scenario. -/
def fsVert : LocalFS := ⟨true, true, [⟨"video.MP4", 3, true, true⟩]⟩

/-- C6 witness: the statement applied to a concrete scan filtered to
VIDEO files. -/
theorem C6_case_insensitive_classification_witness :
    get_file_type "video.MP4" = "VIDEO" ∧
    get_file_type "clip.mov" = "UNKNOWN" ∧
    ∀ f ∈ (scanBody fsVert ["VIDEO"] true).video ++
        (scanBody fsVert ["VIDEO"] true).audio ++
        (scanBody fsVert ["VIDEO"] true).image ++
        (scanBody fsVert ["VIDEO"] true).unknown,
      get_file_type f.name ≠ "UNKNOWN" :=
  ⟨C6_case_insensitive_classification.1,
   C6_case_insensitive_classification.2.1,
   C6_case_insensitive_classification.2.2 fsVert ["VIDEO"] true
     (scanBody fsVert ["VIDEO"] true) rfl⟩

/-- The directory of the C7 scenario: `a.mp4`, `b.wav` and `c.txt` as
immediate children, with arbitrary sizes. -/
def fsABC (sa sb sc : Nat) : LocalFS :=
  ⟨true, true, [⟨"a.mp4", sa, true, true⟩, ⟨"b.wav", sb, true, true⟩,
                ⟨"c.txt", sc, true, true⟩]⟩

/-- C7: a non-recursive scan of a directory holding exactly `a.mp4`,
`b.wav` and `c.txt` with the filter [VIDEO, AUDIO] returns exactly the
two files `a.mp4` and `b.wav`, `total_size` is the exact byte sum of
their sizes, and `c.txt` appears in no category list. -/
theorem C7_video_audio_scan_scenario (sa sb sc : Nat) :
    scan_folder (fsABC sa sb sc) (some ["VIDEO", "AUDIO"]) false =
      .ok { video := [⟨"a.mp4", sa, true, true⟩],
            audio := [⟨"b.wav", sb, true, true⟩],
            image := [], unknown := [],
            total_files := 2, total_size := sa + sb } := rfl

/-- C8: `scan_folder` fails with `FileNotFoundError` whenever the root
path does not exist, and with `ValueError` whenever it exists but is not
a directory — for every entry listing, so no result is produced and no
traversal is performed in either case. -/
theorem C8_root_validation (dir : Bool) (entries : List FileEntry)
    (file_types : Option (List String)) (recursive : Bool) :
    scan_folder ⟨false, dir, entries⟩ file_types recursive =
      .error .fileNotFound ∧
    scan_folder ⟨true, false, entries⟩ file_types recursive =
      .error .notADirectory := by
  constructor <;> rfl

/-- Remote behaviour whose transfer succeeds with HTTP 200 but whose
status endpoint reports `processing` forever. -/
def envStuck : TaskEnv := ⟨.response 200, fun _ => .processing⟩

/-- C4 witness: the timeout statement evaluated on a task that polls a
permanently `processing` remote with a budget of 5 polls. -/
theorem C4_timeout_outcome_witness :
    (runTask 1 1 ⟨"h.mp4"⟩ envStuck 1 5).1.succeeded = false ∧
    (runTask 1 1 ⟨"h.mp4"⟩ envStuck 1 5).1.error =
      some (.timeoutError timeoutMessage) ∧
    (∀ m, (UploadError.timeoutError timeoutMessage) ≠
      UploadError.remoteProcessingError m) ∧
    (runTask 1 1 ⟨"h.mp4"⟩ envStuck 1 5).2.countP isCancelEvent = 0 :=
  C4_timeout_outcome 1 1 ⟨"h.mp4"⟩ envStuck 1 5 rfl
    (fun j hj1 hj2 => ⟨by simp [envStuck], fun m => by simp [envStuck]⟩)

/-- C9: for every value handed to the progress callback — dictionaries
with missing, unexpected or malformed fields, and non-dictionary values
alike — the callback returns normally: its `try/except` wrapper converts
every failure of the body into rendered error lines. The second conjunct
shows the guarantee is not vacuous: the body genuinely can fail. -/
theorem C9_progress_callback_never_raises :
    (∀ v : PyVal, ∃ out, progress_callback v = .ok out) ∧
    (∃ v e, progressCallbackBody v = .error e) := by
  constructor
  · intro v
    unfold progress_callback
    cases h : progressCallbackBody v with
    | ok out => exact ⟨out, rfl⟩
    | error e => exact ⟨_, rfl⟩
  · exact ⟨.pdict [("phase", .pstr "file_start"),
                   ("overall_progress_percent", .pstr "oops")],
           "TypeError: unsupported operand", rfl⟩

/-- C10: every settings record returned by the interactive configuration
has `temperature` in [0, 1] (out-of-range or unparsable input becomes
0.7), `max_wait_time` at least 300 (lower values are raised to 300,
unparsable input becomes 1800) and `poll_interval` at least 5 (lower
values are raised to 5, unparsable input becomes 15). -/
theorem C10_settings_bounds (t : Option ℚ) (w p : Option ℤ) :
    0 ≤ (configure_upload_settings t w p).temperature ∧
    (configure_upload_settings t w p).temperature ≤ 1 ∧
    300 ≤ (configure_upload_settings t w p).max_wait_time ∧
    5 ≤ (configure_upload_settings t w p).poll_interval ∧
    (t = none → (configure_upload_settings t w p).temperature = 7/10) ∧
    (∀ tv, t = some tv → ¬(0 ≤ tv ∧ tv ≤ 1) →
      (configure_upload_settings t w p).temperature = 7/10) ∧
    (w = none → (configure_upload_settings t w p).max_wait_time = 1800) ∧
    (p = none → (configure_upload_settings t w p).poll_interval = 15) := by
  have ht : 0 ≤ normTemperature t ∧ normTemperature t ≤ 1 := by
    cases t with
    | none => constructor <;> norm_num [normTemperature]
    | some tv =>
      simp only [normTemperature]
      split
      next h => exact h
      next h => constructor <;> norm_num
  have hw : 300 ≤ normMaxWaitTime w := by
    cases w with
    | none => norm_num [normMaxWaitTime]
    | some wv =>
      simp only [normMaxWaitTime]
      split
      next h => exact le_max_right wv 300
      next h => omega
  have hp5 : 5 ≤ normPollInterval p := by
    cases p with
    | none => norm_num [normPollInterval]
    | some pv =>
      simp only [normPollInterval]
      split
      next h => exact le_max_right pv 5
      next h => omega
  refine ⟨ht.1, ht.2, hw, hp5, ?_, ?_, ?_, ?_⟩
  · rintro rfl; rfl
  · rintro tv rfl hrange
    show normTemperature (some tv) = 7/10
    simp only [normTemperature]
    rw [if_neg hrange]
  · rintro rfl; rfl
  · rintro rfl; rfl

/-- C10 witness: the bounds statement evaluated at an out-of-range
temperature 2, a too-small max wait 100, and an unparsable poll
interval. -/
theorem C10_settings_bounds_witness :
    0 ≤ (configure_upload_settings (some 2) (some 100) none).temperature ∧
    (configure_upload_settings (some 2) (some 100) none).temperature = 7/10 ∧
    300 ≤ (configure_upload_settings (some 2) (some 100) none).max_wait_time ∧
    (configure_upload_settings (some 2) (some 100) none).poll_interval = 15 := by
  have h := C10_settings_bounds (some 2) (some 100) none
  exact ⟨h.1, h.2.2.2.2.2.1 2 rfl (by norm_num), h.2.2.1,
         h.2.2.2.2.2.2.2 rfl⟩
